import Mathlib

/-!
Verification of the `todo-cli` command-line client (Rust sources under
`src/tools/todo-cli/src/`).  The Rust code is shallowly embedded: JSON
documents become an inductive `Json` value type, serde (de)serialization
becomes explicit encode/decode functions following the derive semantics
field-for-field, HTTP requests become a record of method/url/headers/body
built exactly the way each `ApiClient` method builds them, and response
handling becomes a function from an abstract `HttpResponse` (status plus
parsed body) to `Except String α`.  Terminal styling from the `colored`
crate (bold/dimmed/green/...) is abstracted to the plain text it decorates,
which is what the program prints when output is not a colour-capable tty.
-/

/-- JSON documents, at the value level.  `serde_json` string rendering and
parsing are modelled by working directly on this AST; object fields keep
the order in which serde's derived `Serialize` emits them. -/
inductive Json where
  | null
  | bool (b : Bool)
  | num (n : Int)
  | str (s : String)
  | arr (elems : List Json)
  | obj (fields : List (String × Json))

/-- Field lookup in a JSON object's field list, first match wins
(serde accepts the first occurrence of a field name). -/
def lookupField : List (String × Json) → String → Option Json
  | [], _ => none
  | (k, v) :: rest, key => if k = key then some v else lookupField rest key

/-- `j.getField k`: the field `k` of an object, `none` otherwise. -/
def Json.getField (j : Json) (k : String) : Option Json :=
  match j with
  | .obj fs => lookupField fs k
  | _ => none

def Json.asStr : Json → Option String
  | .str s => some s
  | _ => none

def Json.asInt : Json → Option Int
  | .num n => some n
  | _ => none

def Json.asBool : Json → Option Bool
  | .bool b => some b
  | _ => none

def Json.asArr : Json → Option (List Json)
  | .arr xs => some xs
  | _ => none

/-- The keys of a JSON object, in emission order. -/
def Json.objKeys : Json → List String
  | .obj fs => fs.map Prod.fst
  | _ => []

/-- `Todo` (api.rs lines 5-13): one to-do item as returned by the server. -/
structure Todo where
  id : Int
  user_id : Int
  title : String
  completed : Bool
  created_at : String
  updated_at : String
deriving Repr, DecidableEq

/-- Serde-derived `Serialize` for `Todo`: an object with the six fields in
declaration order. -/
def Todo.toJson (t : Todo) : Json :=
  .obj [("id", .num t.id), ("user_id", .num t.user_id), ("title", .str t.title),
        ("completed", .bool t.completed), ("created_at", .str t.created_at),
        ("updated_at", .str t.updated_at)]

/-- Serde-derived `Deserialize` for `Todo`: every field is required and
type-checked; extra fields are ignored; field order is irrelevant. -/
def Todo.fromJson? (j : Json) : Option Todo := do
  let id ← (j.getField "id").bind Json.asInt
  let user_id ← (j.getField "user_id").bind Json.asInt
  let title ← (j.getField "title").bind Json.asStr
  let completed ← (j.getField "completed").bind Json.asBool
  let created_at ← (j.getField "created_at").bind Json.asStr
  let updated_at ← (j.getField "updated_at").bind Json.asStr
  some { id := id, user_id := user_id, title := title, completed := completed,
         created_at := created_at, updated_at := updated_at }

/-- `TodoListResponse` (api.rs lines 15-19): `{todos: [Todo...], total}`. -/
structure TodoListResponse where
  todos : List Todo
  total : Int
deriving Repr, DecidableEq

/-- Serde-derived `Deserialize` for `TodoListResponse`. -/
def TodoListResponse.fromJson? (j : Json) : Option TodoListResponse := do
  let todosJson ← (j.getField "todos").bind Json.asArr
  let todos ← todosJson.mapM Todo.fromJson?
  let total ← (j.getField "total").bind Json.asInt
  some { todos := todos, total := total }

/-- `UpdateTodoRequest` (api.rs lines 26-32): both fields carry
`#[serde(skip_serializing_if = "Option::is_none")]`. -/
structure UpdateTodoRequest where
  title : Option String
  completed : Option Bool
deriving Repr, DecidableEq

/-- Serde-derived `Serialize` for `UpdateTodoRequest`: a `none` field is
omitted from the emitted object (the `skip_serializing_if` attribute). -/
def UpdateTodoRequest.toJson (r : UpdateTodoRequest) : Json :=
  .obj ((match r.title with
         | some t => [("title", Json.str t)]
         | none => []) ++
        (match r.completed with
         | some b => [("completed", Json.bool b)]
         | none => []))

/-- `AuthResponse` (api.rs lines 46-52): `token` required, `user_id` has
`#[serde(default)]` so a missing or non-integer-shaped field yields the
default `None` only when the field is absent; when present it must parse. -/
structure AuthResponse where
  token : String
  user_id : Option Int
deriving Repr, DecidableEq

/-- Serde-derived `Deserialize` for `AuthResponse`. -/
def AuthResponse.fromJson? (j : Json) : Option AuthResponse := do
  let token ← (j.getField "token").bind Json.asStr
  match j.getField "user_id" with
  | none => some { token := token, user_id := none }
  | some v => do
      let uid ← v.asInt
      some { token := token, user_id := some uid }

/-- An outgoing HTTP request as the client assembles it: method, full URL,
header list in the order headers are attached, optional JSON body. -/
structure HttpRequest where
  method : String
  url : String
  headers : List (String × String)
  body : Option Json

/-- An HTTP response as the client observes it: numeric status and the
body parsed as JSON (`none` when the body is not parseable JSON). -/
structure HttpResponse where
  status : Nat
  body : Option Json

/-- `reqwest::StatusCode::is_success`: the 2xx range. -/
def statusIsSuccess (status : Nat) : Bool :=
  200 ≤ status && status ≤ 299

/-- `response.json::<ApiError>()` (api.rs lines 54-57): succeeds exactly
when the body is JSON with a string field `error`; yields that string. -/
def apiErrorMessage (resp : HttpResponse) : Option String :=
  resp.body.bind fun j => (j.getField "error").bind Json.asStr

/-- Rust `str::trim_end_matches` specialised to a single pattern char. -/
def trimEndMatches (s : String) (c : Char) : String :=
  String.mk ((s.data.reverse.dropWhile (fun d => d = c)).reverse)

/-- `ApiClient` (api.rs lines 59-63): base URL and optional bearer token.
The `reqwest::Client` with its fixed 30-second timeout carries no state
relevant to request construction and is not modelled. -/
structure ApiClient where
  base_url : String
  token : Option String
deriving Repr, DecidableEq

/-- `ApiClient::new` (api.rs lines 66-77): trims trailing slashes off the
base URL and stores the token. -/
def ApiClient.new (base_url : String) (token : Option String) : ApiClient :=
  { base_url := trimEndMatches base_url '/', token := token }

/-- `ApiClient::auth_header` (api.rs lines 88-90):
`self.token.as_ref().map(|t| format!("Bearer \x7b\x7d", t))`. -/
def ApiClient.auth_header (c : ApiClient) : Option String :=
  c.token.map (fun t => "Bearer " ++ t)

/-- The `if let Some(auth) = self.auth_header()` step each todo operation
performs: attach the Authorization header exactly when a token is held. -/
def ApiClient.authHeaders (c : ApiClient) : List (String × String) :=
  match c.auth_header with
  | some auth => [("Authorization", auth)]
  | none => []

/-- Request built by `ApiClient::login` (api.rs lines 92-114): POST with a
JSON `LoginRequest` body and no Authorization header. -/
def ApiClient.loginRequest (c : ApiClient) (email password : String) : HttpRequest :=
  { method := "POST", url := c.base_url ++ "/api/v1/auth/login",
    headers := [],
    body := some (.obj [("email", .str email), ("password", .str password)]) }

/-- Request built by `ApiClient::register` (api.rs lines 116-138): POST
with a JSON `RegisterRequest` body and no Authorization header. -/
def ApiClient.registerRequest (c : ApiClient) (email password : String) : HttpRequest :=
  { method := "POST", url := c.base_url ++ "/api/v1/users",
    headers := [],
    body := some (.obj [("email", .str email), ("password", .str password)]) }

/-- Request built by `ApiClient::list_todos` (api.rs lines 140-159): the
`_completed` filter argument is received but never used — the URL carries
no query string and the request is identical for every filter value. -/
def ApiClient.listTodosRequest (c : ApiClient) (_completed : Option Bool) : HttpRequest :=
  { method := "GET", url := c.base_url ++ "/api/v1/todos",
    headers := c.authHeaders, body := none }

/-- Request built by `ApiClient::get_todo` (api.rs lines 161-179). -/
def ApiClient.getTodoRequest (c : ApiClient) (id : Int) : HttpRequest :=
  { method := "GET", url := c.base_url ++ "/api/v1/todos/" ++ toString id,
    headers := c.authHeaders, body := none }

/-- Request built by `ApiClient::create_todo` (api.rs lines 181-201). -/
def ApiClient.createTodoRequest (c : ApiClient) (title : String) : HttpRequest :=
  { method := "POST", url := c.base_url ++ "/api/v1/todos",
    headers := c.authHeaders,
    body := some (.obj [("title", .str title)]) }

/-- Request built by `ApiClient::update_todo` (api.rs lines 203-229): PUT
with an `UpdateTodoRequest` body serialised with absent fields omitted. -/
def ApiClient.updateTodoRequest (c : ApiClient) (id : Int)
    (title : Option String) (completed : Option Bool) : HttpRequest :=
  { method := "PUT", url := c.base_url ++ "/api/v1/todos/" ++ toString id,
    headers := c.authHeaders,
    body := some (UpdateTodoRequest.toJson { title := title, completed := completed }) }

/-- Request built by `ApiClient::delete_todo` (api.rs lines 231-249). -/
def ApiClient.deleteTodoRequest (c : ApiClient) (id : Int) : HttpRequest :=
  { method := "DELETE", url := c.base_url ++ "/api/v1/todos/" ++ toString id,
    headers := c.authHeaders, body := none }

/-- Outcome of `ApiClient::login` on a received response (api.rs lines
106-113): non-success status yields `Login failed: ` plus the parsed
server error or the `Unknown error` fallback; success parses an
`AuthResponse` or fails with the parse context message. -/
def ApiClient.loginOutcome (resp : HttpResponse) : Except String AuthResponse :=
  if statusIsSuccess resp.status then
    match resp.body.bind AuthResponse.fromJson? with
    | some a => .ok a
    | none => .error "Failed to parse login response"
  else
    .error ("Login failed: " ++ (apiErrorMessage resp).getD "Unknown error")

/-- Outcome of `ApiClient::register` (api.rs lines 130-137). -/
def ApiClient.registerOutcome (resp : HttpResponse) : Except String AuthResponse :=
  if statusIsSuccess resp.status then
    match resp.body.bind AuthResponse.fromJson? with
    | some a => .ok a
    | none => .error "Failed to parse register response"
  else
    .error ("Registration failed: " ++ (apiErrorMessage resp).getD "Unknown error")

/-- Outcome of `ApiClient::list_todos` (api.rs lines 150-158): on success
the parsed `TodoListResponse` is reduced to `list.todos`, returned whole
with no client-side filtering; the `_completed` argument plays no part. -/
def ApiClient.listTodosOutcome (_completed : Option Bool) (resp : HttpResponse) :
    Except String (List Todo) :=
  if statusIsSuccess resp.status then
    match resp.body.bind TodoListResponse.fromJson? with
    | some list => .ok list.todos
    | none => .error "Failed to parse todos"
  else
    .error ("Failed to list todos: " ++ (apiErrorMessage resp).getD "Unknown error")

/-- Outcome of `ApiClient::get_todo` (api.rs lines 171-178). -/
def ApiClient.getTodoOutcome (resp : HttpResponse) : Except String Todo :=
  if statusIsSuccess resp.status then
    match resp.body.bind Todo.fromJson? with
    | some t => .ok t
    | none => .error "Failed to parse todo"
  else
    .error ("Failed to get todo: " ++ (apiErrorMessage resp).getD "Unknown error")

/-- Outcome of `ApiClient::create_todo` (api.rs lines 193-200). -/
def ApiClient.createTodoOutcome (resp : HttpResponse) : Except String Todo :=
  if statusIsSuccess resp.status then
    match resp.body.bind Todo.fromJson? with
    | some t => .ok t
    | none => .error "Failed to parse created todo"
  else
    .error ("Failed to create todo: " ++ (apiErrorMessage resp).getD "Unknown error")

/-- Outcome of `ApiClient::update_todo` (api.rs lines 221-228). -/
def ApiClient.updateTodoOutcome (resp : HttpResponse) : Except String Todo :=
  if statusIsSuccess resp.status then
    match resp.body.bind Todo.fromJson? with
    | some t => .ok t
    | none => .error "Failed to parse updated todo"
  else
    .error ("Failed to update todo: " ++ (apiErrorMessage resp).getD "Unknown error")

/-- Outcome of `ApiClient::delete_todo` (api.rs lines 241-248). -/
def ApiClient.deleteTodoOutcome (resp : HttpResponse) : Except String Unit :=
  if statusIsSuccess resp.status then
    .ok ()
  else
    .error ("Failed to delete todo: " ++ (apiErrorMessage resp).getD "Unknown error")

/-- Rust `char::is_whitespace`: the Unicode `White_Space` property — the
control characters U+0009..U+000D (tab, line feed, vertical tab, form
feed, carriage return), space, next line U+0085, no-break space U+00A0,
Ogham space mark U+1680, the U+2000..U+200A space family, line separator
U+2028, paragraph separator U+2029, narrow no-break space U+202F, medium
mathematical space U+205F, and ideographic space U+3000. -/
def rustIsWhitespace (c : Char) : Bool :=
  let n := c.toNat
  (0x9 ≤ n && n ≤ 0xD) || n == 0x20 || n == 0x85 || n == 0xA0 || n == 0x1680 ||
  (0x2000 ≤ n && n ≤ 0x200A) || n == 0x2028 || n == 0x2029 || n == 0x202F ||
  n == 0x205F || n == 0x3000

/-- Rust `str::trim`: strip `char::is_whitespace` characters from both
ends. -/
def rustTrim (s : String) : String :=
  String.mk (((s.data.dropWhile rustIsWhitespace).reverse.dropWhile rustIsWhitespace).reverse)

/-- Rust `u8::to_ascii_lowercase` lifted to `Char`. -/
def asciiLower (c : Char) : Char :=
  if 'A' ≤ c ∧ c ≤ 'Z' then Char.ofNat (c.toNat + 32) else c

/-- Rust `str::eq_ignore_ascii_case`. -/
def eqIgnoreAsciiCase (a b : String) : Bool :=
  a.data.map asciiLower == b.data.map asciiLower

/-- What the `Commands::Delete` arm of `main` decides (main.rs lines
171-183): call the delete operation, or cancel printing a message and
returning `Ok(())` (process exit status 0). -/
inductive DeleteDispatch where
  | callDelete
  | cancel (message : String) (exitCode : Nat)
deriving Repr, DecidableEq

/-- `Commands::Delete` dispatcher (main.rs lines 171-183): with `--force`
delete immediately; otherwise read `line` from stdin and delete only when
`line.trim().eq_ignore_ascii_case("y")`, else print `Cancelled.` and
return `Ok(())`. -/
def deleteDispatch (force : Bool) (line : String) : DeleteDispatch :=
  if force then .callDelete
  else if eqIgnoreAsciiCase (rustTrim line) "y" then .callDelete
  else .cancel "Cancelled." 0

/-- `Commands::Update` arm (main.rs lines 166-170): forwards its arguments
to `ApiClient::update_todo` unchanged. -/
def dispatchUpdateRequest (c : ApiClient) (id : Int)
    (title : Option String) (completed : Option Bool) : HttpRequest :=
  c.updateTodoRequest id title completed

/-- `Commands::Done` arm (main.rs lines 184-188):
`client.update_todo(id, None, Some(true))`. -/
def dispatchDoneRequest (c : ApiClient) (id : Int) : HttpRequest :=
  c.updateTodoRequest id none (some true)

/-- `Commands::Undone` arm (main.rs lines 189-193):
`client.update_todo(id, None, Some(false))`. -/
def dispatchUndoneRequest (c : ApiClient) (id : Int) : HttpRequest :=
  c.updateTodoRequest id none (some false)

/-- `print_todo_line` (output.rs lines 40-54), with the `colored` styling
(green/yellow glyph colour, strikethrough plus dimmed title when
completed) abstracted to the plain text printed on a non-tty stream:
`  {status} #{id} {title}`. -/
def printTodoLine (t : Todo) : String :=
  "  " ++ (if t.completed then "✓" else "○") ++ " #" ++ toString t.id ++ " " ++ t.title

/-- `print_todos` in text mode (output.rs lines 11-23), as the list of
printed lines: an empty slice prints the dimmed `No todos found.` line and
returns; otherwise a bold count header, a blank line, then one line per
todo in slice order. -/
def printTodosText (todos : List Todo) : List String :=
  if todos.isEmpty then
    ["No todos found."]
  else
    ("📋 " ++ toString todos.length ++ " todos:") :: "" :: todos.map printTodoLine

/-- `print_todos` in json mode (output.rs lines 8-10): the serialised todo
array, no decoration. -/
def printTodosJson (todos : List Todo) : Json :=
  .arr (todos.map Todo.toJson)

/-- `print_todo` in json mode (output.rs lines 30-32):
`serde_json::to_string_pretty(todo)` — at the JSON value level, the serde
serialisation of the todo.  `serde_json`'s pretty printer and parser are a
faithful rendering/parsing pair for this value. -/
def printTodoJson (t : Todo) : Json :=
  Todo.toJson t

/-- `Config` (config.rs lines 10-20): `api_url` is the only serialised
field; `token` and `config_path` carry `#[serde(skip)]`. -/
structure Config where
  api_url : Option String
  token : Option String
  config_path : Option String
deriving Repr, DecidableEq

/-- The serde `Serialize` derive for `Config` as `toml::to_string_pretty`
emits it (config.rs line 48): key/value pairs for the non-skipped fields
only; an `api_url` of `None` emits no key (TOML has no null). -/
def Config.serializeToml (c : Config) : List (String × String) :=
  match c.api_url with
  | some url => [("api_url", url)]
  | none => []

/-- The externally visible persisted state touched by the client: the
settings file content (as serialised key/value pairs, `none` when never
written) and the keyring entry under (`todo-cli`, `api_token`). -/
structure PersistState where
  settingsFile : Option (List (String × String))
  keyringToken : Option String
deriving Repr, DecidableEq

/-- `Config::save` (config.rs lines 42-52): overwrite the settings file
with the full serialised config.  Only the file is touched. -/
def Config.save (c : Config) (st : PersistState) : PersistState :=
  { st with settingsFile := some c.serializeToml }

/-- `Config::set_token` (config.rs lines 65-71): upsert the keyring entry.
Only the keyring is touched; the settings file is never written. -/
def Config.setTokenOp (token : String) (st : PersistState) : PersistState :=
  { st with keyringToken := some token }

/-- `Config::set_url` (config.rs lines 88-91): mutate `api_url` in memory,
then `save`. -/
def Config.setUrl (c : Config) (url : String) (st : PersistState) : Config × PersistState :=
  let c := { c with api_url := some url }
  (c, c.save st)

/-- `keyring::Entry::delete_credential`: deleting an absent entry reports
an error, deleting a present one succeeds; either way the entry is gone. -/
def keyringDelete (st : PersistState) : Except Unit Unit × PersistState :=
  match st.keyringToken with
  | some _ => (.ok (), { st with keyringToken := none })
  | none => (.error (), st)

/-- `Config::clear_token` (config.rs lines 73-79): best-effort delete —
`let _ = entry.delete_credential();` discards the result, so the function
returns `Ok(())` whether or not an entry existed. -/
def Config.clearTokenOp (st : PersistState) : Except String Unit × PersistState :=
  let (_, st) := keyringDelete st
  (.ok (), st)

/-- `auth::logout` (auth.rs lines 33-37): `Config::clear_token()?` then a
success message; propagates `clear_token`'s result. -/
def logout (st : PersistState) : Except String Unit × PersistState :=
  match Config.clearTokenOp st with
  | (.ok _, st) => (.ok (), st)
  | (.error e, st) => (.error e, st)

/-- `main` returns `Result<()>`; `Ok` exits with status 0, `Err` prints
the error and exits non-zero (anyhow's default behaviour). -/
def exitCode : Except String Unit → Nat
  | .ok _ => 0
  | .error _ => 1

/-- A concrete task used to instantiate universally quantified theorems. -/
def sampleTodo : Todo :=
  { id := 1, user_id := 2, title := "buy milk", completed := false,
    created_at := "2024-01-15T10:30:00Z", updated_at := "2024-01-15T10:30:00Z" }

/-- C7: serialising any task through the JSON rendering path and
deserialising the resulting document yields a task equal to the original
in every field. -/
theorem c7_todo_json_roundtrip (t : Todo) :
    Todo.fromJson? (printTodoJson t) = some t := by
  rfl

/-- C10: `done <id>` builds exactly the request `update <id> --completed
true` builds (only the `completed` field, set to `true`, no `title`), and
`undone <id>` exactly the request of `update <id> --completed false`. -/
theorem c10_done_undone_refine_update (c : ApiClient) (id : Int) :
    dispatchDoneRequest c id = dispatchUpdateRequest c id none (some true) ∧
    dispatchUndoneRequest c id = dispatchUpdateRequest c id none (some false) ∧
    (dispatchDoneRequest c id).body = some (Json.obj [("completed", Json.bool true)]) ∧
    (dispatchUndoneRequest c id).body = some (Json.obj [("completed", Json.bool false)]) := by
  exact ⟨rfl, rfl, rfl, rfl⟩

/-- C6: logout returns `Ok(())` (exit status 0) from every persisted
state — whether a credential was stored or not — and clearing treats an
absent entry and the failing underlying delete as success. -/
theorem c6_logout_always_succeeds (st : PersistState) :
    (Config.clearTokenOp st).1 = .ok () ∧
    (logout st).1 = .ok () ∧
    exitCode (logout st).1 = 0 ∧
    ((logout st).2).keyringToken = none := by
  cases h : st.keyringToken <;>
    simp [logout, Config.clearTokenOp, keyringDelete, h, exitCode]

/-- C8: in text mode, an empty collection renders as the single
`No todos found.` line (no count header); a non-empty collection renders
as the count header, a separating blank line, and exactly one line per
task in input order. -/
theorem c8_list_rendering (todos : List Todo) :
    (todos = [] → printTodosText todos = ["No todos found."]) ∧
    (todos ≠ [] →
      printTodosText todos =
        ("📋 " ++ toString todos.length ++ " todos:") :: "" :: todos.map printTodoLine ∧
      (todos.map printTodoLine).length = todos.length) := by
  constructor
  · intro h
    subst h
    rfl
  · intro h
    cases todos with
    | nil => exact absurd rfl h
    | cons t ts => simp [printTodosText]

/-- Witness for `c8_list_rendering` at the empty list and at a concrete
singleton list. -/
theorem c8_list_rendering_witness :
    printTodosText [] = ["No todos found."] ∧
    printTodosText [sampleTodo] = ["📋 1 todos:", "", "  ○ #1 buy milk"] := by
  constructor
  · exact (c8_list_rendering []).1 rfl
  · have h := (c8_list_rendering [sampleTodo]).2 (by simp)
    exact h.1.trans (by rfl)

/-- C1 fails as stated: `ApiClient::login` builds its request without ever
consulting `auth_header`, so even a client holding a credential sends no
`Authorization` header on the login operation (and likewise register). -/
theorem c1_login_lacks_auth_header_counterexample :
    (ApiClient.new "http://localhost:8080" (some "tok")).token = some "tok" ∧
    ((ApiClient.new "http://localhost:8080" (some "tok")).loginRequest
        "user@example.com" "pw").headers = [] ∧
    ((ApiClient.new "http://localhost:8080" (some "tok")).registerRequest
        "user@example.com" "pw").headers = [] := by
  exact ⟨rfl, rfl, rfl⟩

/-- C1 (amended): the five task operations (list, get, create, update,
delete) carry `Authorization: Bearer <token>` exactly when a credential is
present and no header when absent; the login and register operations never
attach the header, whatever the credential state. -/
theorem c1_auth_header_amended (c : ApiClient) (t : String) (id : Int)
    (title : String) (uTitle : Option String) (uCompleted : Option Bool)
    (filter : Option Bool) (email password : String) :
    (c.token = some t →
      (c.listTodosRequest filter).headers = [("Authorization", "Bearer " ++ t)] ∧
      (c.getTodoRequest id).headers = [("Authorization", "Bearer " ++ t)] ∧
      (c.createTodoRequest title).headers = [("Authorization", "Bearer " ++ t)] ∧
      (c.updateTodoRequest id uTitle uCompleted).headers = [("Authorization", "Bearer " ++ t)] ∧
      (c.deleteTodoRequest id).headers = [("Authorization", "Bearer " ++ t)]) ∧
    (c.token = none →
      (c.listTodosRequest filter).headers = [] ∧
      (c.getTodoRequest id).headers = [] ∧
      (c.createTodoRequest title).headers = [] ∧
      (c.updateTodoRequest id uTitle uCompleted).headers = [] ∧
      (c.deleteTodoRequest id).headers = []) ∧
    (c.loginRequest email password).headers = [] ∧
    (c.registerRequest email password).headers = [] := by
  refine ⟨fun h => ?_, fun h => ?_, rfl, rfl⟩ <;>
    simp [ApiClient.listTodosRequest, ApiClient.getTodoRequest, ApiClient.createTodoRequest,
          ApiClient.updateTodoRequest, ApiClient.deleteTodoRequest, ApiClient.authHeaders,
          ApiClient.auth_header, h]

/-- Witness for `c1_auth_header_amended` at a client with a token and a
client without one. -/
theorem c1_auth_header_amended_witness :
    ((ApiClient.new "http://localhost:8080" (some "tok")).listTodosRequest none).headers =
      [("Authorization", "Bearer " ++ "tok")] ∧
    ((ApiClient.new "http://localhost:8080" none).listTodosRequest none).headers = [] := by
  constructor
  · exact ((c1_auth_header_amended (ApiClient.new "http://localhost:8080" (some "tok"))
      "tok" 1 "t" none none none "e" "p").1 rfl).1
  · exact ((c1_auth_header_amended (ApiClient.new "http://localhost:8080" none)
      "tok" 1 "t" none none none "e" "p").2.1 rfl).1

/-- C2 fails as stated: the dispatcher trims the stdin line before the
case-insensitive comparison, so the line `" y"` — not exactly `y` or `Y` —
still reaches the delete call. -/
theorem c2_delete_trims_input_counterexample :
    deleteDispatch false " y" = DeleteDispatch.callDelete ∧
    " y" ≠ "y" ∧ " y" ≠ "Y" := by
  refine ⟨rfl, by decide, by decide⟩

/-- C2 (amended): without `--force`, the delete operation is called iff
the stdin line equals `y` ASCII-case-insensitively after trimming leading
and trailing Unicode whitespace; every other line cancels without calling
delete, printing `Cancelled.` and exiting with status 0. -/
theorem c2_delete_confirmation_amended (line : String) :
    (deleteDispatch false line = DeleteDispatch.callDelete ↔
      eqIgnoreAsciiCase (rustTrim line) "y" = true) ∧
    (eqIgnoreAsciiCase (rustTrim line) "y" = false →
      deleteDispatch false line = DeleteDispatch.cancel "Cancelled." 0) := by
  by_cases h : eqIgnoreAsciiCase (rustTrim line) "y" = true <;>
    simp [deleteDispatch, h]

/-- Witness for `c2_delete_confirmation_amended`: `"Y\n"` proceeds to the
delete call, as does a line led by a form feed (Unicode whitespace the
program trims) or by a plain space; `"no"` cancels with exit status 0. -/
theorem c2_delete_confirmation_witness :
    deleteDispatch false "Y\n" = DeleteDispatch.callDelete ∧
    deleteDispatch false "\x0Cy" = DeleteDispatch.callDelete ∧
    deleteDispatch false " y" = DeleteDispatch.callDelete ∧
    deleteDispatch false "no" = DeleteDispatch.cancel "Cancelled." 0 := by
  refine ⟨?_, ?_, ?_, ?_⟩
  · exact (c2_delete_confirmation_amended "Y\n").1.mpr (by decide)
  · exact (c2_delete_confirmation_amended "\x0Cy").1.mpr (by decide)
  · exact (c2_delete_confirmation_amended " y").1.mpr (by decide)
  · exact (c2_delete_confirmation_amended "no").2 (by decide)

/-- C3: the body transmitted by `updateTask` contains the `title` field
iff a title argument was supplied and the `completed` field iff a
completed argument was supplied; with neither supplied the body is the
empty object. -/
theorem c3_update_body_field_presence (c : ApiClient) (id : Int)
    (title : Option String) (completed : Option Bool) (j : Json) :
    (c.updateTodoRequest id title completed).body = some j →
      (("title" ∈ j.objKeys) ↔ title.isSome = true) ∧
      (("completed" ∈ j.objKeys) ↔ completed.isSome = true) ∧
      (title = none → completed = none → j = Json.obj []) := by
  intro h
  have hj : j = UpdateTodoRequest.toJson { title := title, completed := completed } :=
    (Option.some.inj h).symm
  subst hj
  cases title <;> cases completed <;>
    simp [UpdateTodoRequest.toJson, Json.objKeys]

/-- Witness for `c3_update_body_field_presence`: with both arguments
supplied `title` is a body key; with the title argument absent it is
not. -/
theorem c3_update_body_field_presence_witness :
    ("title" ∈ (Json.obj [("title", Json.str "t"), ("completed", Json.bool true)]).objKeys) ∧
    ("title" ∈ (Json.obj [("completed", Json.bool true)]).objKeys → False) := by
  constructor
  · exact (c3_update_body_field_presence (ApiClient.new "u" none) 1 (some "t") (some true)
      (Json.obj [("title", Json.str "t"), ("completed", Json.bool true)]) rfl).1.mpr rfl
  · intro hmem
    have h := (c3_update_body_field_presence (ApiClient.new "u" none) 1 none (some true)
      (Json.obj [("completed", Json.bool true)]) rfl).1.mp hmem
    exact absurd h (by decide)

/-- C4: the completion filter is inert — every filter value builds the
identical GET request (same URL, no query string appended to the fixed
path) and produces the identical outcome, and a successful response's
todo collection is returned whole, unfiltered. -/
theorem c4_list_filter_inert (c : ApiClient) (f₁ f₂ : Option Bool) (resp : HttpResponse)
    (list : TodoListResponse) :
    c.listTodosRequest f₁ = c.listTodosRequest f₂ ∧
    (c.listTodosRequest f₁).url = c.base_url ++ "/api/v1/todos" ∧
    ApiClient.listTodosOutcome f₁ resp = ApiClient.listTodosOutcome f₂ resp ∧
    (statusIsSuccess resp.status = true →
      resp.body.bind TodoListResponse.fromJson? = some list →
      ApiClient.listTodosOutcome f₁ resp = .ok list.todos) := by
  refine ⟨rfl, rfl, rfl, fun hs hb => ?_⟩
  simp [ApiClient.listTodosOutcome, hs, hb]

/-- Witness for `c4_list_filter_inert` at a 200 response carrying one
todo: both filter values return the full collection. -/
theorem c4_list_filter_inert_witness :
    ApiClient.listTodosOutcome (some true)
      (HttpResponse.mk 200 (some (Json.obj [("todos", Json.arr [Todo.toJson sampleTodo]),
        ("total", Json.num 1)]))) = .ok [sampleTodo] := by
  exact (c4_list_filter_inert (ApiClient.new "u" none) (some true) none
    (HttpResponse.mk 200 (some (Json.obj [("todos", Json.arr [Todo.toJson sampleTodo]),
      ("total", Json.num 1)])))
    (TodoListResponse.mk [sampleTodo] 1)).2.2.2 rfl rfl

/-- C5: on every non-success response, every operation fails with its
operation-specific message head followed by the parsed `{error: string}`
body when it parses, and by the literal fallback `Unknown error` when it
does not. -/
theorem c5_error_fallback (resp : HttpResponse) :
    statusIsSuccess resp.status = false →
      (apiErrorMessage resp = none →
        ApiClient.loginOutcome resp = .error ("Login failed: " ++ "Unknown error") ∧
        ApiClient.registerOutcome resp = .error ("Registration failed: " ++ "Unknown error") ∧
        (∀ f, ApiClient.listTodosOutcome f resp =
          .error ("Failed to list todos: " ++ "Unknown error")) ∧
        ApiClient.getTodoOutcome resp = .error ("Failed to get todo: " ++ "Unknown error") ∧
        ApiClient.createTodoOutcome resp = .error ("Failed to create todo: " ++ "Unknown error") ∧
        ApiClient.updateTodoOutcome resp = .error ("Failed to update todo: " ++ "Unknown error") ∧
        ApiClient.deleteTodoOutcome resp = .error ("Failed to delete todo: " ++ "Unknown error")) ∧
      (∀ m, apiErrorMessage resp = some m →
        ApiClient.loginOutcome resp = .error ("Login failed: " ++ m) ∧
        ApiClient.registerOutcome resp = .error ("Registration failed: " ++ m) ∧
        (∀ f, ApiClient.listTodosOutcome f resp = .error ("Failed to list todos: " ++ m)) ∧
        ApiClient.getTodoOutcome resp = .error ("Failed to get todo: " ++ m) ∧
        ApiClient.createTodoOutcome resp = .error ("Failed to create todo: " ++ m) ∧
        ApiClient.updateTodoOutcome resp = .error ("Failed to update todo: " ++ m) ∧
        ApiClient.deleteTodoOutcome resp = .error ("Failed to delete todo: " ++ m)) := by
  intro hs
  constructor
  · intro hm
    simp [ApiClient.loginOutcome, ApiClient.registerOutcome, ApiClient.listTodosOutcome,
          ApiClient.getTodoOutcome, ApiClient.createTodoOutcome, ApiClient.updateTodoOutcome,
          ApiClient.deleteTodoOutcome, hs, hm]
  · intro m hm
    simp [ApiClient.loginOutcome, ApiClient.registerOutcome, ApiClient.listTodosOutcome,
          ApiClient.getTodoOutcome, ApiClient.createTodoOutcome, ApiClient.updateTodoOutcome,
          ApiClient.deleteTodoOutcome, hs, hm]

/-- Witness for `c5_error_fallback`: a 404 with an unparseable body gives
the fallback message; a 500 with a parsed `{"error": "boom"}` body carries
the server's message. -/
theorem c5_error_fallback_witness :
    ApiClient.loginOutcome (HttpResponse.mk 404 none) =
      .error ("Login failed: " ++ "Unknown error") ∧
    ApiClient.deleteTodoOutcome
      (HttpResponse.mk 500 (some (Json.obj [("error", Json.str "boom")]))) =
      .error ("Failed to delete todo: " ++ "boom") := by
  constructor
  · exact ((c5_error_fallback (HttpResponse.mk 404 none) rfl).1 rfl).1
  · exact ((c5_error_fallback
      (HttpResponse.mk 500 (some (Json.obj [("error", Json.str "boom")]))) rfl).2
      "boom" rfl).2.2.2.2.2.2

/-- C9: the settings file only ever receives the serialised config, whose
keys are all `api_url` (never `token`), and storing a token touches the
keyring entry only — the settings file content is unchanged. -/
theorem c9_token_never_in_settings_file (c : Config) (st : PersistState)
    (token : String) (doc : List (String × String)) :
    ((Config.save c st).settingsFile = some doc →
      ∀ kv ∈ doc, kv.1 = "api_url" ∧ kv.1 ≠ "token") ∧
    (Config.setTokenOp token st).settingsFile = st.settingsFile := by
  constructor
  · intro h kv hkv
    have hd : doc = c.serializeToml := (Option.some.inj h).symm
    subst hd
    cases hu : c.api_url with
    | none => simp [Config.serializeToml, hu] at hkv
    | some u =>
        simp [Config.serializeToml, hu] at hkv
        subst hkv
        exact ⟨rfl, show "api_url" ≠ "token" by decide⟩
  · rfl

/-- Witness for `c9_token_never_in_settings_file` at a config that holds
both a base URL and a token. -/
theorem c9_token_never_in_settings_file_witness :
    (∀ kv ∈ [("api_url", "http://example.com")], kv.1 = "api_url" ∧ kv.1 ≠ "token") ∧
    (Config.setTokenOp "secret" (PersistState.mk none none)).settingsFile = none := by
  constructor
  · exact (c9_token_never_in_settings_file
      (Config.mk (some "http://example.com") (some "secret") none)
      (PersistState.mk none none) "secret" [("api_url", "http://example.com")]).1 rfl
  · exact (c9_token_never_in_settings_file
      (Config.mk (some "http://example.com") (some "secret") none)
      (PersistState.mk none none) "secret" []).2
